import Mathlib

/-!
Shallow embedding of the chat server in `serverRPC.py` (gRPC chat service
backed by a `users` / `messages` relational store).

Modelling conventions:
* The relational store is a `Store` value: a list of user rows, a list of
  message rows, and the `AUTO_INCREMENT` counter for `messages.messageid`.
* Python `str.strip` is `pyStrip`, `str.lower` is `pyLower` (defined below).
* `m.datetime` holds the already-formatted timestamp string (the
  `strftime` formatting of a timestamp is external to the logic).
* Each unary handler is a function `Store → request fields → Store × response`.
  The bidirectional `CheckMessages` handler is a step function on an explicit
  stage value (mirroring the `stage` variable in the Python generator) plus a
  runner that feeds it a list of client turns; `stage = .done` models the
  `break` statements that end the `for req in request_iterator` loop.
-/

structure User where
  username : String
  password : String
  active : Bool
deriving DecidableEq

structure Msg where
  messageid : Nat
  receiver : String
  sender : String
  message : String
  datetime : String
  isread : Bool
deriving DecidableEq

structure Store where
  users : List User
  messages : List Msg
  next_id : Nat
deriving DecidableEq

structure Response where
  command : String
  server_message : String
deriving DecidableEq

structure SendMessageResponse where
  success : Bool
  server_message : String
deriving DecidableEq

structure SearchResponse where
  success : Bool
  usernames : List String
  server_message : String
deriving DecidableEq

structure CheckMessagesRequest where
  username : String
  choice : String
  sender : String
deriving DecidableEq

structure CheckMessagesResponse where
  command : String
  server_message : String
  sender : String
  message_body : String
deriving DecidableEq

/-- Request shape for the two confirmation-gated flows
(`DeleteLastMessage`, `DeactivateAccount`). -/
structure ConfirmRequest where
  username : String
  confirmation : String
deriving DecidableEq

/-- Python `str.strip()` with no argument: drop leading and trailing
whitespace. Implemented structurally on the character list so that the
kernel can evaluate it on literals. -/
def pyStrip (t : String) : String :=
  String.mk (((t.data.dropWhile Char.isWhitespace).reverse.dropWhile Char.isWhitespace).reverse)

/-- Python `str.lower()`: lowercase every character. -/
def pyLower (t : String) : String :=
  String.mk (t.data.map Char.toLower)

/-- `checkRealUsername` from `serverRPC.py`:
`SELECT COUNT(*) FROM users WHERE username=%s` compared with 0. -/
def checkRealUsername (s : Store) (username : String) : Bool :=
  s.users.any (fun u => u.username == username)

/-- `checkValidPassword` from `serverRPC.py`. -/
def checkValidPassword (password : String) : Bool :=
  if password.length < 7 then
    false
  else
    let has_upper := password.data.any (fun c => c.isUpper)
    let has_digit := password.data.any (fun c => c.isDigit)
    let has_special := password.data.any (fun c => c ∈ ['_', '@', '$', '#', '!'])
    has_upper && has_digit && has_special

/-- `ChatService.Register`. The bcrypt digest (`hashPass`) is an external
collaborator, passed in as an opaque `hash` function. -/
def Register (hash : String → String) (s : Store)
    (username password confirm_password : String) : Store × Response :=
  let reg_username := pyStrip username
  let reg_password := pyStrip password
  let confirm := pyStrip confirm_password
  if reg_username = "" ∨ reg_password = "" ∨ confirm = "" then
    (s, { command := "1", server_message := "Registration canceled: All fields are required." })
  else if checkRealUsername s reg_username then
    (s, { command := "1", server_message := "Username taken. Please choose another." })
  else if ¬ checkValidPassword reg_password then
    (s, { command := "1",
          server_message := "Invalid password: Must be >=7 chars, include uppercase, digit, and special char." })
  else if reg_password ≠ confirm then
    (s, { command := "1", server_message := "Passwords do not match." })
  else
    ({ s with users := s.users ++ [{ username := reg_username, password := hash reg_password, active := true }] },
     { command := "1", server_message := "Registration successful. You are now logged in!" })

/-- Python `full_text.split(" ", 1)` restricted to what the handler needs:
`none` when the text has no space (the split yields a single part), otherwise
the part before the first space and everything after it. -/
def splitOnFirstSpace : List Char → Option (List Char × List Char)
  | [] => none
  | c :: cs =>
    if c = ' ' then some ([], cs)
    else
      match splitOnFirstSpace cs with
      | none => none
      | some (a, b) => some (c :: a, b)

/-- Python `full_text.startswith("@")`: the prefix is the single character
`'@'`, so this is the test that the first character is `'@'`. -/
def startsWithAtSign (t : String) : Bool :=
  match t.data with
  | [] => false
  | c :: _ => c == '@'

/-- `ChatService.SendMessage`. `md` is the call's invocation metadata
(an association list); `now` is the store-assigned timestamp of the new row. -/
def SendMessage (s : Store) (md : List (String × String)) (rawMessage now : String) :
    Store × SendMessageResponse :=
  let full_text := pyStrip rawMessage
  let sender := (md.lookup "username").getD "unknown"
  if ¬ startsWithAtSign full_text then
    (s, { success := false,
          server_message := "Message must start with \x27@username\x27 for a direct message." })
  else
    match splitOnFirstSpace full_text.data with
    | none =>
      (s, { success := false, server_message := "Invalid format. Use \x27@username message\x27." })
    | some (p0, p1) =>
      let target_username := String.mk (p0.drop 1)
      let message := String.mk p1
      if ¬ checkRealUsername s target_username then
        (s, { success := false, server_message := "Recipient does not exist." })
      else
        ({ s with
            messages := s.messages ++
              [{ messageid := s.next_id, receiver := target_username, sender := sender,
                 message := message, datetime := now, isread := false }],
            next_id := s.next_id + 1 },
         { success := true, server_message := "" })

/-- `ChatService.SearchUsers`:
`SELECT username FROM users`, then drop the caller's own (stripped) name. -/
def SearchUsers (s : Store) (username : String) : SearchResponse :=
  let u := pyStrip username
  { success := true,
    usernames := (s.users.map (fun r => r.username)).filter (fun x => x != u),
    server_message := "User list retrieved." }

/-- Ids of unread messages sent by `u`
(`SELECT messageid FROM messages WHERE sender=%s AND isread=0`). -/
def unreadSentIds (s : Store) (u : String) : List Nat :=
  (s.messages.filter (fun m => m.sender == u && m.isread == false)).map (fun m => m.messageid)

/-- Maximum of a list of ids, `none` on the empty list
(`ORDER BY messageid DESC LIMIT 1`). -/
def maxId? : List Nat → Option Nat
  | [] => none
  | x :: xs =>
    match maxId? xs with
    | none => some x
    | some y => some (max x y)

/-- `ChatService.DeleteLastMessage`: the handler first yields a confirmation
prompt, then consumes exactly one client turn and terminates after its second
server turn on every path. -/
def DeleteLastMessage (s : Store) (req : ConfirmRequest) : Store × List Response :=
  let prompt : Response :=
    { command := "delete",
      server_message := "Are you sure you want to delete your last unread message? (yes/no)" }
  let username := pyStrip req.username
  let confirm := pyLower (pyStrip req.confirmation)
  if confirm = "yes" then
    match maxId? (unreadSentIds s username) with
    | none =>
      (s, [prompt, { command := "delete", server_message := "No unread messages to delete." }])
    | some last_id =>
      ({ s with messages := s.messages.filter (fun m => m.messageid != last_id) },
       [prompt, { command := "delete", server_message := "Your last unread message was deleted." }])
  else
    (s, [prompt, { command := "delete", server_message := "Delete canceled." }])

/-- `ChatService.DeactivateAccount`: prompt, one client turn, then on "yes"
(case-insensitive) delete all messages sent by the user and the user row. -/
def DeactivateAccount (s : Store) (req : ConfirmRequest) : Store × List Response :=
  let prompt : Response :=
    { command := "deactivate",
      server_message := "Are you sure you want to deactivate your account? (yes/no)" }
  let username := pyStrip req.username
  let confirmation := pyLower (pyStrip req.confirmation)
  if confirmation = "yes" then
    ({ s with
        messages := s.messages.filter (fun m => m.sender != username),
        users := s.users.filter (fun u => u.username != username) },
     [prompt, { command := "deactivate",
                server_message := "Your account and sent messages are removed." }])
  else
    (s, [prompt, { command := "deactivate", server_message := "Deactivation canceled." }])

/-- `SELECT COUNT(*) FROM messages WHERE receiver=%s AND isread=0`. -/
def unreadCount (s : Store) (username : String) : Nat :=
  (s.messages.filter (fun m => m.receiver == username && m.isread == false)).length

/-- `SELECT sender, COUNT(*) FROM messages WHERE receiver=%s AND isread=0
GROUP BY sender`, with groups listed in first-appearance order. -/
def sendersWithCounts (msgs : List Msg) : List (String × Nat) :=
  msgs.foldl
    (fun acc m =>
      if acc.any (fun p => p.1 == m.sender) then
        acc.map (fun p => if p.1 == m.sender then (p.1, p.2 + 1) else p)
      else acc ++ [(m.sender, 1)])
    []

/-- Insert a message into a list already ascending by `messageid`. -/
def insertByMsgId (m : Msg) : List Msg → List Msg
  | [] => [m]
  | x :: xs => if m.messageid ≤ x.messageid then m :: x :: xs else x :: insertByMsgId m xs

/-- Sort a list of messages ascending by `messageid` (`ORDER BY messageid`). -/
def sortByMsgId : List Msg → List Msg
  | [] => []
  | x :: xs => insertByMsgId x (sortByMsgId xs)

/-- `SELECT messageid, sender, message, datetime FROM messages
WHERE receiver=%s AND sender=%s AND isread=0 ORDER BY messageid`. -/
def fetchUnread (s : Store) (username chosen_sender : String) : List Msg :=
  sortByMsgId
    (s.messages.filter
      (fun m => m.receiver == username && m.sender == chosen_sender && m.isread == false))

/-- `UPDATE messages SET isread=1 WHERE messageid IN (ids)` applied to one row. -/
def markReadRow (ids : List Nat) (m : Msg) : Msg :=
  if ids.contains m.messageid then { m with isread := true } else m

/-- `UPDATE messages SET isread=1 WHERE messageid IN (ids)` over the table. -/
def markRead (ids : List Nat) (msgs : List Msg) : List Msg :=
  msgs.map (markReadRow ids)

/-- The per-message delivery turn of the triage flow
(`f"{ts} {m['sender']}: {m['message']}"` plus the structured fields). -/
def deliveryTurn (m : Msg) : CheckMessagesResponse :=
  { command := "checkmessages",
    server_message := m.datetime ++ " " ++ m.sender ++ ": " ++ m.message,
    sender := m.sender,
    message_body := m.message }

/-- The "(This batch marked as read.)" confirmation turn. -/
def batchReadTurn : CheckMessagesResponse :=
  { command := "checkmessages", server_message := "(This batch marked as read.)",
    sender := "", message_body := "" }

/-- The terminal "Done reading messages from this sender." turn. -/
def doneTurn : CheckMessagesResponse :=
  { command := "checkmessages", server_message := "Done reading messages from this sender.",
    sender := "", message_body := "" }

/-- A plain server turn of the triage flow (structured fields left empty). -/
def plainTurn (text : String) : CheckMessagesResponse :=
  { command := "checkmessages", server_message := text, sender := "", message_body := "" }

/-- The batching loop `for i in range(0, len(msgs), batch_size)` of
`CheckMessages` stage 2: for each batch of 5, one delivery turn per message,
then the batch's ids are marked read in the store and one confirmation turn
is emitted. Returns the final store and the emitted turns in order. -/
def deliverBatches (s : Store) (msgs : List Msg) : Store × List CheckMessagesResponse :=
  match msgs with
  | [] => (s, [])
  | m :: rest =>
    let batch := m :: rest.take 4
    let remaining := rest.drop 4
    let turns := batch.map deliveryTurn
    let s' := { s with messages := markRead (batch.map (fun x => x.messageid)) s.messages }
    let out := deliverBatches s' remaining
    (out.1, turns ++ batchReadTurn :: out.2)
termination_by msgs.length
decreasing_by
  simp only [List.length_cons, List.length_drop]
  omega

/-- The conversation stage of `CheckMessages` (the `stage` variable plus the
`username` captured at stage 0); `done` models leaving the request loop via
`break`. -/
inductive Stage
  | awaitUsername
  | awaitChoice (username : String)
  | awaitSender (username : String)
  | done
deriving DecidableEq

/-- One iteration of the `for req in request_iterator` loop of
`ChatService.CheckMessages`: consume one client turn in the given stage,
returning the new store, the next stage and the server turns emitted. -/
def checkMessagesStep (s : Store) (st : Stage) (req : CheckMessagesRequest) :
    Store × Stage × List CheckMessagesResponse :=
  match st with
  | .done => (s, .done, [])
  | .awaitUsername =>
    let username := pyStrip req.username
    if username = "" then
      (s, .done, [plainTurn "No username provided. Aborting."])
    else
      let cnt := unreadCount s username
      if cnt = 0 then
        (s, .done, [plainTurn "You have 0 unread messages."])
      else
        (s, .awaitChoice username,
         [plainTurn ("You have " ++ toString cnt ++
           " unread messages.\nType \x271\x27 to read them, or \x272\x27 to skip.")])
  | .awaitChoice username =>
    let choice := pyStrip req.choice
    if choice = "2" then
      (s, .done, [plainTurn "Skipping reading messages."])
    else if choice = "1" then
      let senders_info :=
        sendersWithCounts (s.messages.filter (fun m => m.receiver == username && m.isread == false))
      if senders_info.isEmpty then
        (s, .done, [plainTurn "No unread messages found."])
      else
        let senders_str :=
          ", ".intercalate (senders_info.map (fun r => r.1 ++ "(" ++ toString r.2 ++ ")"))
        (s, .awaitSender username,
         [plainTurn ("Unread from: " ++ senders_str ++
           "\nType the sender\x27s name to read those messages.")])
    else
      (s, .awaitChoice username, [plainTurn "Invalid choice. Please type \x271\x27 or \x272\x27."])
  | .awaitSender username =>
    let chosen_sender := pyStrip req.sender
    if chosen_sender = "" then
      (s, .awaitSender username, [plainTurn "Please provide a valid sender name."])
    else
      let msgs := fetchUnread s username chosen_sender
      if msgs.isEmpty then
        (s, .done, [plainTurn ("No unread messages from " ++ chosen_sender ++ ".")])
      else
        let out := deliverBatches s msgs
        (out.1, .done, out.2 ++ [doneTurn])

/-- Feed a list of client turns to `checkMessagesStep`, stopping as soon as
the stage is `done` (the Python generator has left its request loop). -/
def runCheckMessages (s : Store) (st : Stage) :
    List CheckMessagesRequest → Store × Stage × List CheckMessagesResponse
  | [] => (s, st, [])
  | req :: reqs =>
    if st = Stage.done then (s, st, [])
    else
      let step := checkMessagesStep s st req
      let tail := runCheckMessages step.1 step.2.1 reqs
      (tail.1, tail.2.1, step.2.2 ++ tail.2.2)

/-! ### Lemmas about the mark-as-read update -/

theorem markReadRow_of_read (ids : List Nat) (m : Msg) (h : m.isread = true) :
    markReadRow ids m = m := by
  cases m
  simp_all [markReadRow]

theorem markReadRow_comp (ids ids2 : List Nat) (m : Msg) :
    markReadRow ids2 (markReadRow ids m) = markReadRow (ids ++ ids2) m := by
  by_cases h1 : m.messageid ∈ ids <;> by_cases h2 : m.messageid ∈ ids2 <;>
    simp [markReadRow, h1, h2]

theorem markRead_append (ids ids2 : List Nat) (l : List Msg) :
    markRead ids2 (markRead ids l) = markRead (ids ++ ids2) l := by
  induction l with
  | nil => rfl
  | cons x xs ih => simp only [markRead, List.map_cons] at *; rw [markReadRow_comp, ih]

theorem markRead_nil (l : List Msg) : markRead [] l = l := by
  induction l with
  | nil => rfl
  | cons x xs ih => simp only [markRead, List.map_cons] at *; rw [ih]; simp [markReadRow]

/-! ### Lemmas about sorting by message id -/

theorem mem_insertByMsgId (a m : Msg) (l : List Msg) :
    a ∈ insertByMsgId m l ↔ a = m ∨ a ∈ l := by
  induction l with
  | nil => simp [insertByMsgId]
  | cons x xs ih =>
    rw [insertByMsgId]
    split
    · simp
    · simp [ih]; tauto

theorem mem_sortByMsgId (a : Msg) (l : List Msg) : a ∈ sortByMsgId l ↔ a ∈ l := by
  induction l with
  | nil => simp [sortByMsgId]
  | cons x xs ih => simp [sortByMsgId, mem_insertByMsgId, ih]

theorem length_insertByMsgId (m : Msg) (l : List Msg) :
    (insertByMsgId m l).length = l.length + 1 := by
  induction l with
  | nil => rfl
  | cons x xs ih => rw [insertByMsgId]; split <;> simp [ih]

theorem length_sortByMsgId (l : List Msg) : (sortByMsgId l).length = l.length := by
  induction l with
  | nil => rfl
  | cons x xs ih => simp [sortByMsgId, length_insertByMsgId, ih]

theorem sorted_insertByMsgId (m : Msg) (l : List Msg)
    (h : List.Pairwise (fun a b => a.messageid ≤ b.messageid) l) :
    List.Pairwise (fun a b => a.messageid ≤ b.messageid) (insertByMsgId m l) := by
  induction l with
  | nil => simp [insertByMsgId]
  | cons x xs ih =>
    rcases List.pairwise_cons.mp h with ⟨hx, hxs⟩
    rw [insertByMsgId]
    by_cases hle : m.messageid ≤ x.messageid
    · rw [if_pos hle]
      refine List.pairwise_cons.mpr ⟨?_, h⟩
      intro b hb
      rcases List.mem_cons.mp hb with rfl | hb
      · exact hle
      · exact le_trans hle (hx b hb)
    · rw [if_neg hle]
      refine List.pairwise_cons.mpr ⟨?_, ih hxs⟩
      intro b hb
      rcases (mem_insertByMsgId b m xs).mp hb with rfl | hb
      · omega
      · exact hx b hb

theorem sorted_sortByMsgId (l : List Msg) :
    List.Pairwise (fun a b => a.messageid ≤ b.messageid) (sortByMsgId l) := by
  induction l with
  | nil => simp [sortByMsgId]
  | cons x xs ih => exact sorted_insertByMsgId x _ ih

theorem mem_fetchUnread (s : Store) (u c : String) (m : Msg) :
    m ∈ fetchUnread s u c ↔
      m ∈ s.messages ∧ m.receiver = u ∧ m.sender = c ∧ m.isread = false := by
  simp [fetchUnread, mem_sortByMsgId, List.mem_filter, and_assoc]

theorem fetchUnread_sorted (s : Store) (u c : String) :
    List.Sorted (fun a b => a ≤ b) ((fetchUnread s u c).map (fun m => m.messageid)) :=
  List.Pairwise.map _ (fun _ _ h => h) (sorted_sortByMsgId _)

/-! ### Lemmas about the maximum id -/

theorem maxId?_eq_none (l : List Nat) : maxId? l = none ↔ l = [] := by
  cases l with
  | nil => simp [maxId?]
  | cons x xs => cases h : maxId? xs <;> simp [maxId?, h]

theorem maxId?_spec (l : List Nat) (m : Nat) (h : maxId? l = some m) :
    m ∈ l ∧ ∀ x ∈ l, x ≤ m := by
  induction l generalizing m with
  | nil => simp [maxId?] at h
  | cons x xs ih =>
    rw [maxId?] at h
    cases hxs : maxId? xs with
    | none =>
      rw [hxs] at h
      simp only [Option.some.injEq] at h
      subst h
      have hnil : xs = [] := (maxId?_eq_none xs).mp hxs
      subst hnil
      simp
    | some y =>
      rw [hxs] at h
      simp only [Option.some.injEq] at h
      rcases ih y hxs with ⟨hy, hall⟩
      subst h
      constructor
      · rcases Nat.le_total x y with hxy | hyx
        · rw [max_eq_right hxy]
          exact List.mem_cons_of_mem _ hy
        · rw [max_eq_left hyx]
          simp
      · intro z hz
        rcases List.mem_cons.mp hz with rfl | hz
        · exact le_max_left _ _
        · exact le_trans (hall z hz) (le_max_right _ _)

/-! ### Lemmas about the batching loop -/

theorem deliverBatches_fst_aux (n : Nat) : ∀ (s : Store) (msgs : List Msg), msgs.length ≤ n →
    (deliverBatches s msgs).1 =
      { s with messages := markRead (msgs.map (fun m => m.messageid)) s.messages } := by
  induction n with
  | zero =>
    intro s msgs hlen
    have hmsgs : msgs = [] := List.eq_nil_of_length_eq_zero (Nat.le_zero.mp hlen)
    subst hmsgs
    rw [deliverBatches]
    simp [markRead_nil]
  | succ n ih =>
    intro s msgs hlen
    cases msgs with
    | nil => rw [deliverBatches]; simp [markRead_nil]
    | cons x xs =>
      rw [deliverBatches]
      dsimp only
      have hlt : (xs.drop 4).length ≤ n := by
        simp only [List.length_drop]
        simp only [List.length_cons] at hlen
        omega
      rw [ih _ _ hlt, markRead_append]
      congr 1
      rw [← List.map_append]
      congr 1
      simp [List.take_append_drop]

theorem deliverBatches_fst (s : Store) (msgs : List Msg) :
    (deliverBatches s msgs).1 =
      { s with messages := markRead (msgs.map (fun m => m.messageid)) s.messages } :=
  deliverBatches_fst_aux msgs.length s msgs (le_refl _)

theorem deliverBatches_nil (s : Store) : deliverBatches s [] = (s, []) := by
  rw [deliverBatches]

theorem deliverBatches_turns_aux (n : Nat) : ∀ (s : Store) (msgs : List Msg), msgs.length ≤ n →
    (∀ m ∈ msgs, m.sender ≠ "") →
    (deliverBatches s msgs).2.filter (fun r => r.sender != "") = msgs.map deliveryTurn ∧
    (deliverBatches s msgs).2.count batchReadTurn = (msgs.length + 4) / 5 := by
  induction n with
  | zero =>
    intro s msgs hlen _
    have hmsgs : msgs = [] := List.eq_nil_of_length_eq_zero (Nat.le_zero.mp hlen)
    subst hmsgs
    rw [deliverBatches]
    simp
  | succ n ih =>
    intro s msgs hlen hs
    cases msgs with
    | nil => rw [deliverBatches]; simp
    | cons x xs =>
      rw [deliverBatches]
      dsimp only
      have hlt : (xs.drop 4).length ≤ n := by
        simp only [List.length_drop]
        simp only [List.length_cons] at hlen
        omega
      have hs2 : ∀ m ∈ xs.drop 4, m.sender ≠ "" :=
        fun m hm => hs m (List.mem_cons_of_mem _ (List.drop_subset _ _ hm))
      have hbatch : ∀ m ∈ x :: xs.take 4, m.sender ≠ "" := by
        intro m hm
        rcases List.mem_cons.mp hm with rfl | hm
        · exact hs m (by simp)
        · exact hs m (List.mem_cons_of_mem _ (List.take_subset _ _ hm))
      rcases ih { s with messages := markRead (List.map (fun y => y.messageid) (x :: List.take 4 xs)) s.messages } _ hlt hs2 with ⟨ih1, ih2⟩
      have hnotmem : batchReadTurn ∉ (x :: xs.take 4).map deliveryTurn := by
        intro hmem
        rcases List.mem_map.mp hmem with ⟨m, hm, heq⟩
        have : m.sender = "" := by
          have := congrArg CheckMessagesResponse.sender heq
          simpa [deliveryTurn, batchReadTurn] using this
        exact hbatch m hm this
      constructor
      · rw [List.filter_append]
        have h1 : ((x :: xs.take 4).map deliveryTurn).filter (fun r => r.sender != "") =
            (x :: xs.take 4).map deliveryTurn := by
          rw [List.filter_eq_self]
          intro a ha
          rcases List.mem_map.mp ha with ⟨m, hm, rfl⟩
          simpa [deliveryTurn] using hbatch m hm
        have h2 : ∀ l : List CheckMessagesResponse,
            (batchReadTurn :: l).filter (fun r => r.sender != "") =
              l.filter (fun r => r.sender != "") := by
          intro l
          simp [batchReadTurn]
        rw [h1, h2, ih1, ← List.map_append]
        congr 1
        simp [List.take_append_drop]
      · have h0 : ((x :: xs.take 4).map deliveryTurn).count batchReadTurn = 0 :=
          List.count_eq_zero.mpr hnotmem
        rw [List.count_append, h0]
        simp only [List.count_cons, ih2, beq_self_eq_true, if_true, List.length_drop,
          List.length_cons]
        omega

theorem deliverBatches_single (s : Store) (m : Msg) (rest : List Msg) (h : rest.length ≤ 4) :
    (deliverBatches s (m :: rest)).2 = (m :: rest).map deliveryTurn ++ [batchReadTurn] := by
  rw [deliverBatches]
  dsimp only
  rw [List.take_of_length_le h, List.drop_eq_nil_of_le h, deliverBatches_nil]

/-! ### Concrete data for instantiating the theorems -/

/-- An unread message from bob to alice with id 1. -/
def demoMsg1 : Msg :=
  { messageid := 1, receiver := "alice", sender := "bob", message := "hi",
    datetime := "2026-01-01 10:00:00", isread := false }

/-- An unread message from bob to alice with id 2. -/
def demoMsg2 : Msg :=
  { messageid := 2, receiver := "alice", sender := "bob", message := "yo",
    datetime := "2026-01-01 10:05:00", isread := false }

/-- A store with two users (bob logged off) and two unread messages. -/
def demoStore : Store :=
  { users := [{ username := "alice", password := "h1", active := true },
              { username := "bob", password := "h2", active := false }],
    messages := [demoMsg1, demoMsg2],
    next_id := 3 }

/-! ### The claims -/

/-- Claim C10: `SearchUsers` filters only by exact string equality with the
caller's stripped username: it answers `success = true` with every username of
the users table other than the caller's own, including users whose `active`
flag is false, and with an empty list exactly when no other username exists.
(The model has no store failure, so `success` is always true.) -/
theorem c10_searchUsers_exact_filter (s : Store) (username : String) :
    (SearchUsers s username).success = true ∧
    (∀ x : String, x ∈ (SearchUsers s username).usernames ↔
      ((∃ u ∈ s.users, u.username = x) ∧ x ≠ pyStrip username)) ∧
    (∀ u ∈ s.users, u.active = false → u.username ≠ pyStrip username →
      u.username ∈ (SearchUsers s username).usernames) ∧
    ((SearchUsers s username).usernames = [] ↔
      ∀ u ∈ s.users, u.username = pyStrip username) := by
  have hmem : ∀ x : String, x ∈ (SearchUsers s username).usernames ↔
      ((∃ u ∈ s.users, u.username = x) ∧ x ≠ pyStrip username) := by
    intro x
    simp only [SearchUsers, List.mem_filter, List.mem_map, bne_iff_ne, ne_eq]
  refine ⟨rfl, hmem, ?_, ?_⟩
  · intro u hu hact hne
    exact (hmem u.username).mpr ⟨⟨u, hu, rfl⟩, hne⟩
  · constructor
    · intro hnil u hu
      by_contra hne
      have hx := (hmem u.username).mpr ⟨⟨u, hu, rfl⟩, hne⟩
      rw [hnil] at hx
      exact absurd hx (List.not_mem_nil _)
    · intro hall
      cases hx : (SearchUsers s username).usernames with
      | nil => rfl
      | cons a l =>
        have ha : a ∈ (SearchUsers s username).usernames := by simp [hx]
        rcases (hmem a).mp ha with ⟨⟨u, hu, hux⟩, hne⟩
        rw [← hux] at hne
        exact absurd (hall u hu) hne

/-- Witness for C10 on the concrete store. -/
theorem c10_witness :
    (SearchUsers demoStore "alice").success = true ∧
    "bob" ∈ (SearchUsers demoStore "alice").usernames := by
  refine ⟨(c10_searchUsers_exact_filter demoStore "alice").1, ?_⟩
  refine ((c10_searchUsers_exact_filter demoStore "alice").2.1 "bob").mpr ⟨?_, ?_⟩
  · exact ⟨{ username := "bob", password := "h2", active := false }, by decide, rfl⟩
  · decide

/-- Claim C8: the store's mark-as-read update is idempotent: a row whose
`isread` flag is already true is left entirely unchanged by the update, the
update touches no other row (it is a row-wise map), and marking the same
batch of ids read twice yields the same table as marking it once. -/
theorem c8_markRead_idempotent (ids : List Nat) (msgs : List Msg) :
    markRead ids (markRead ids msgs) = markRead ids msgs ∧
    (∀ m : Msg, m.isread = true → markReadRow ids m = m) := by
  constructor
  · rw [markRead_append]
    unfold markRead
    apply List.map_congr_left
    intro m hm
    by_cases h : m.messageid ∈ ids <;> simp [markReadRow, h]
  · exact fun m hm => markReadRow_of_read ids m hm

/-- Witness for C8: marking `[1, 2]` read twice in the demo store equals
marking it once, and a read row is untouched. -/
theorem c8_witness :
    markRead [1, 2] (markRead [1, 2] demoStore.messages) =
      markRead [1, 2] demoStore.messages ∧
    markReadRow [1, 2] { demoMsg1 with isread := true } = { demoMsg1 with isread := true } := by
  refine ⟨(c8_markRead_idempotent [1, 2] demoStore.messages).1, ?_⟩
  exact (c8_markRead_idempotent [1, 2] demoStore.messages).2 _ (by decide)

/-- Claim C4: `Register` rejects — returning a failure message and storing
nothing — on an empty stripped field, an existing username, a policy-violating
password (length ≥ 7, an uppercase letter, a digit, one of `_ @ $ # !`), or a
mismatched confirmation, checked in that order; otherwise it stores the user
with the password digest and `active = true` and answers a message containing
"successful". The policy rejects "abc" and "abcdefg" and accepts "Abcdef1!". -/
theorem c4_register_spec (hash : String → String) (s : Store)
    (username password confirm_password : String) :
    ((pyStrip username = "" ∨ pyStrip password = "" ∨ pyStrip confirm_password = "") →
      Register hash s username password confirm_password =
        (s, { command := "1",
              server_message := "Registration canceled: All fields are required." })) ∧
    (pyStrip username ≠ "" → pyStrip password ≠ "" → pyStrip confirm_password ≠ "" →
      checkRealUsername s (pyStrip username) = true →
      Register hash s username password confirm_password =
        (s, { command := "1", server_message := "Username taken. Please choose another." })) ∧
    (pyStrip username ≠ "" → pyStrip password ≠ "" → pyStrip confirm_password ≠ "" →
      checkRealUsername s (pyStrip username) = false →
      checkValidPassword (pyStrip password) = false →
      Register hash s username password confirm_password =
        (s, { command := "1",
              server_message := "Invalid password: Must be >=7 chars, include uppercase, digit, and special char." })) ∧
    (pyStrip username ≠ "" → pyStrip password ≠ "" → pyStrip confirm_password ≠ "" →
      checkRealUsername s (pyStrip username) = false →
      checkValidPassword (pyStrip password) = true →
      pyStrip password ≠ pyStrip confirm_password →
      Register hash s username password confirm_password =
        (s, { command := "1", server_message := "Passwords do not match." })) ∧
    (pyStrip username ≠ "" → pyStrip password ≠ "" → pyStrip confirm_password ≠ "" →
      checkRealUsername s (pyStrip username) = false →
      checkValidPassword (pyStrip password) = true →
      pyStrip password = pyStrip confirm_password →
      Register hash s username password confirm_password =
        ({ s with users := s.users ++
            [{ username := pyStrip username, password := hash (pyStrip password),
               active := true }] },
         { command := "1", server_message := "Registration successful. You are now logged in!" })) ∧
    List.IsInfix "successful".data "Registration successful. You are now logged in!".data ∧
    checkValidPassword "abc" = false ∧
    checkValidPassword "abcdefg" = false ∧
    checkValidPassword "Abcdef1!" = true := by
  refine ⟨?_, ?_, ?_, ?_, ?_, by decide, by decide, by decide, by decide⟩
  · intro h
    simp only [Register]
    rw [if_pos h]
  · intro h1 h2 h3 ht
    simp only [Register]
    rw [if_neg (by tauto)]
    rw [if_pos ht]
  · intro h1 h2 h3 ht hv
    simp only [Register]
    rw [if_neg (by tauto)]
    rw [if_neg (by simp [ht])]
    rw [if_pos (by simp [hv])]
  · intro h1 h2 h3 ht hv hne
    simp only [Register]
    rw [if_neg (by tauto)]
    rw [if_neg (by simp [ht])]
    rw [if_neg (by simp [hv])]
    rw [if_pos hne]
  · intro h1 h2 h3 ht hv heq
    simp only [Register]
    rw [if_neg (by tauto)]
    rw [if_neg (by simp [ht])]
    rw [if_neg (by simp [hv])]
    rw [if_neg (by simp [heq])]

/-- Witness for C4: registering carol with password "Abcdef1!" succeeds and
appends the user row. -/
theorem c4_witness :
    Register (fun p => p) demoStore "carol" "Abcdef1!" "Abcdef1!" =
      ({ demoStore with users := demoStore.users ++
          [{ username := "carol", password := "Abcdef1!", active := true }] },
       { command := "1", server_message := "Registration successful. You are now logged in!" }) := by
  have h := (c4_register_spec (fun p => p) demoStore "carol" "Abcdef1!" "Abcdef1!").2.2.2.2.1
    (by decide) (by decide) (by decide) (by decide) (by decide) (by decide)
  rw [h]
  decide

/-- Counterexample to claim C2 as stated: the handler strips and lowercases
the confirmation, so the confirmation value "YES" — which is not the string
"yes" — still deletes the caller's most recent unread sent message instead of
emitting "canceled". -/
theorem c2_counterexample :
    ("YES" : String) ≠ "yes" ∧
    (DeleteLastMessage { users := demoStore.users, messages := [demoMsg1], next_id := 3 }
        { username := "bob", confirmation := "YES" }).1.messages = [] ∧
    (DeleteLastMessage { users := demoStore.users, messages := [demoMsg1], next_id := 3 }
        { username := "bob", confirmation := "YES" }).2 =
      [{ command := "delete",
         server_message := "Are you sure you want to delete your last unread message? (yes/no)" },
       { command := "delete", server_message := "Your last unread message was deleted." }] := by
  decide

/-- Claim C2 (amended): with the confirmation compared after stripping and
lowercasing — if it equals "yes", the unread message with maximum id among
those with `sender = username` is deleted and a "deleted" turn follows the
prompt, or a "nothing to delete" turn if no such message exists; any other
(stripped, lowercased) confirmation yields a "canceled" turn and no deletion.
The flow always terminates after that second server turn (the model consumes
exactly one client turn, mirroring the unconditional `break`). -/
theorem c2_deleteLast_spec (s : Store) (req : ConfirmRequest) :
    (pyLower (pyStrip req.confirmation) = "yes" →
      maxId? (unreadSentIds s (pyStrip req.username)) = none →
      DeleteLastMessage s req =
        (s, [{ command := "delete",
               server_message := "Are you sure you want to delete your last unread message? (yes/no)" },
             { command := "delete", server_message := "No unread messages to delete." }])) ∧
    (∀ last_id : Nat, pyLower (pyStrip req.confirmation) = "yes" →
      maxId? (unreadSentIds s (pyStrip req.username)) = some last_id →
      last_id ∈ unreadSentIds s (pyStrip req.username) ∧
      (∀ i ∈ unreadSentIds s (pyStrip req.username), i ≤ last_id) ∧
      DeleteLastMessage s req =
        ({ s with messages := s.messages.filter (fun m => m.messageid != last_id) },
         [{ command := "delete",
            server_message := "Are you sure you want to delete your last unread message? (yes/no)" },
          { command := "delete", server_message := "Your last unread message was deleted." }])) ∧
    (pyLower (pyStrip req.confirmation) ≠ "yes" →
      DeleteLastMessage s req =
        (s, [{ command := "delete",
               server_message := "Are you sure you want to delete your last unread message? (yes/no)" },
             { command := "delete", server_message := "Delete canceled." }])) := by
  refine ⟨?_, ?_, ?_⟩
  · intro hc hmax
    simp only [DeleteLastMessage]
    rw [if_pos hc, hmax]
  · intro last_id hc hmax
    rcases maxId?_spec _ _ hmax with ⟨hmem, hall⟩
    refine ⟨hmem, hall, ?_⟩
    simp only [DeleteLastMessage]
    rw [if_pos hc, hmax]
  · intro hc
    simp only [DeleteLastMessage]
    rw [if_neg hc]

/-- Witness for the amended C2: confirmation "no" leaves the demo store
untouched and cancels. -/
theorem c2_witness :
    DeleteLastMessage demoStore { username := "bob", confirmation := "no" } =
      (demoStore,
       [{ command := "delete",
          server_message := "Are you sure you want to delete your last unread message? (yes/no)" },
        { command := "delete", server_message := "Delete canceled." }]) :=
  (c2_deleteLast_spec demoStore { username := "bob", confirmation := "no" }).2.2 (by decide)

/-- Claim C3: after `DeactivateAccount` with confirmation "yes" for user `u`,
no message sent by `u` remains, the user row is gone, `u` is absent from any
subsequent `SearchUsers` result, and messages from other senders (including
those received by `u`) are all retained. -/
theorem c3_deactivate_cascade (s : Store) (req : ConfirmRequest)
    (hconf : pyLower (pyStrip req.confirmation) = "yes") :
    (∀ m ∈ (DeactivateAccount s req).1.messages, m.sender ≠ pyStrip req.username) ∧
    (∀ u ∈ (DeactivateAccount s req).1.users, u.username ≠ pyStrip req.username) ∧
    (∀ q : String, pyStrip req.username ∉ (SearchUsers (DeactivateAccount s req).1 q).usernames) ∧
    (DeactivateAccount s req).1.messages =
      s.messages.filter (fun m => m.sender != pyStrip req.username) := by
  have hstep : (DeactivateAccount s req).1 =
      { s with
          messages := s.messages.filter (fun m => m.sender != pyStrip req.username),
          users := s.users.filter (fun u => u.username != pyStrip req.username) } := by
    simp only [DeactivateAccount]
    rw [if_pos hconf]
  refine ⟨?_, ?_, ?_, by rw [hstep]⟩
  · intro m hm
    rw [hstep] at hm
    simp only [List.mem_filter, bne_iff_ne, ne_eq] at hm
    exact hm.2
  · intro u hu
    rw [hstep] at hu
    simp only [List.mem_filter, bne_iff_ne, ne_eq] at hu
    exact hu.2
  · intro q hq
    simp only [SearchUsers, List.mem_filter, List.mem_map] at hq
    rcases hq with ⟨⟨u, hu, huname⟩, _⟩
    rw [hstep] at hu
    simp only [List.mem_filter, bne_iff_ne, ne_eq] at hu
    exact hu.2 huname

/-- Witness for C3: bob deactivates; bob is absent from alice's search. -/
theorem c3_witness :
    pyStrip "bob" ∉
      (SearchUsers (DeactivateAccount demoStore
        { username := "bob", confirmation := "yes" }).1 "alice").usernames :=
  (c3_deactivate_cascade demoStore { username := "bob", confirmation := "yes" }
    (by decide)).2.2.1 "alice"

/-- Claim C9: when the call metadata has no "username" key, `SendMessage` uses
the literal sender "unknown"; and the sender is never checked against the
users table — success of a well-formed message to an existing recipient is
independent of the metadata entirely. -/
theorem c9_sendMessage_sender_metadata (s : Store) (md : List (String × String))
    (rawMessage now : String)
    (hnone : md.lookup "username" = none)
    (hsucc : (SendMessage s md rawMessage now).2.success = true) :
    (∃ tgt body : String,
      (SendMessage s md rawMessage now).1.messages =
        s.messages ++ [{ messageid := s.next_id, receiver := tgt, sender := "unknown",
                         message := body, datetime := now, isread := false }]) ∧
    (∀ md2 : List (String × String), (SendMessage s md2 rawMessage now).2.success = true) := by
  by_cases h1 : startsWithAtSign (pyStrip rawMessage) = true
  · cases hsp : splitOnFirstSpace (pyStrip rawMessage).data with
    | none => simp [SendMessage, h1, hsp] at hsucc
    | some p =>
      rcases p with ⟨p0, p1⟩
      cases h2 : checkRealUsername s (String.mk p0.tail) with
      | false => simp [SendMessage, h1, hsp, List.drop_one, h2] at hsucc
      | true =>
        constructor
        · refine ⟨String.mk p0.tail, String.mk p1, ?_⟩
          simp [SendMessage, h1, hsp, List.drop_one, h2, hnone]
        · intro md2
          simp [SendMessage, h1, hsp, List.drop_one, h2]
  · simp [SendMessage, h1] at hsucc

/-- Witness for C9: an empty metadata list sends "@alice hello" as "unknown". -/
theorem c9_witness :
    (∃ tgt body : String,
      (SendMessage demoStore [] "@alice hello" "t3").1.messages =
        demoStore.messages ++
          [{ messageid := demoStore.next_id, receiver := tgt, sender := "unknown",
             message := body, datetime := "t3", isread := false }]) ∧
    (∀ md2 : List (String × String),
      (SendMessage demoStore md2 "@alice hello" "t3").2.success = true) :=
  c9_sendMessage_sender_metadata demoStore [] "@alice hello" "t3" (by decide) (by decide)

theorem markRead_append_list (ids : List Nat) (a b : List Msg) :
    markRead ids (a ++ b) = markRead ids a ++ markRead ids b := by
  simp [markRead]

theorem markRead_eq_self (ids : List Nat) (l : List Msg)
    (h : ∀ m ∈ l, m.messageid ∉ ids) : markRead ids l = l := by
  induction l with
  | nil => rfl
  | cons x xs ih =>
    have hx : x.messageid ∉ ids := h x (by simp)
    have htail := ih (fun m hm => h m (List.mem_cons_of_mem _ hm))
    simp only [markRead, List.map_cons] at htail ⊢
    rw [htail]
    simp [markReadRow, hx]

/-- The message row inserted by a successful `SendMessage` whose stripped text
splits as `p0 ++ " " ++ p1`. -/
def newMsgOf (s : Store) (md : List (String × String)) (p0 p1 : List Char)
    (now : String) : Msg :=
  { messageid := s.next_id, receiver := String.mk p0.tail,
    sender := (md.lookup "username").getD "unknown",
    message := String.mk p1, datetime := now, isread := false }

/-- Claim C7: `SendMessage` rejects, inserting nothing, a stripped text that
does not start with "@" or has no space, and a valid-looking text whose
recipient does not exist; otherwise it inserts exactly one unread message for
the recipient, which then appears in the recipient's triage unread results,
raises the unread count by one, and — once marked read — no longer counts as
unread. -/
theorem c7_send_insert_roundtrip (s : Store) (md : List (String × String))
    (rawMessage now : String)
    (wf : ∀ m ∈ s.messages, m.messageid < s.next_id) :
    (startsWithAtSign (pyStrip rawMessage) = false →
      SendMessage s md rawMessage now =
        (s, { success := false,
              server_message := "Message must start with \x27@username\x27 for a direct message." })) ∧
    (startsWithAtSign (pyStrip rawMessage) = true →
      splitOnFirstSpace (pyStrip rawMessage).data = none →
      SendMessage s md rawMessage now =
        (s, { success := false, server_message := "Invalid format. Use \x27@username message\x27." })) ∧
    (∀ p0 p1 : List Char, startsWithAtSign (pyStrip rawMessage) = true →
      splitOnFirstSpace (pyStrip rawMessage).data = some (p0, p1) →
      checkRealUsername s (String.mk p0.tail) = false →
      SendMessage s md rawMessage now =
        (s, { success := false, server_message := "Recipient does not exist." })) ∧
    (∀ p0 p1 : List Char, startsWithAtSign (pyStrip rawMessage) = true →
      splitOnFirstSpace (pyStrip rawMessage).data = some (p0, p1) →
      checkRealUsername s (String.mk p0.tail) = true →
      (SendMessage s md rawMessage now).2.success = true ∧
      (SendMessage s md rawMessage now).1.messages =
        s.messages ++ [newMsgOf s md p0 p1 now] ∧
      (newMsgOf s md p0 p1 now).isread = false ∧
      newMsgOf s md p0 p1 now ∈
        fetchUnread (SendMessage s md rawMessage now).1 (String.mk p0.tail)
          (newMsgOf s md p0 p1 now).sender ∧
      unreadCount (SendMessage s md rawMessage now).1 (String.mk p0.tail) =
        unreadCount s (String.mk p0.tail) + 1 ∧
      unreadCount
        { (SendMessage s md rawMessage now).1 with
            messages := markRead [s.next_id] (SendMessage s md rawMessage now).1.messages }
        (String.mk p0.tail) =
        unreadCount s (String.mk p0.tail)) := by
  refine ⟨?_, ?_, ?_, ?_⟩
  · intro h1
    simp [SendMessage, h1]
  · intro h1 hsp
    simp [SendMessage, h1, hsp]
  · intro p0 p1 h1 hsp h2
    simp [SendMessage, h1, hsp, List.drop_one, h2]
  · intro p0 p1 h1 hsp h2
    have hres : SendMessage s md rawMessage now =
        ({ s with
            messages := s.messages ++ [newMsgOf s md p0 p1 now],
            next_id := s.next_id + 1 },
         { success := true, server_message := "" }) := by
      simp [SendMessage, h1, hsp, List.drop_one, h2, newMsgOf]
    have hfresh : ∀ m ∈ s.messages, m.messageid ∉ [s.next_id] := by
      intro m hm
      simp only [List.mem_singleton]
      exact Nat.ne_of_lt (wf m hm)
    refine ⟨by rw [hres], by rw [hres], rfl, ?_, ?_, ?_⟩
    · rw [hres]
      refine (mem_fetchUnread _ _ _ _).mpr ⟨?_, rfl, rfl, rfl⟩
      simp
    · rw [hres]
      simp only [unreadCount, List.filter_append]
      rw [List.length_append]
      have hnew : (List.filter
          (fun m => m.receiver == String.mk p0.tail && m.isread == false)
          [newMsgOf s md p0 p1 now]).length = 1 := by
        simp [newMsgOf]
      rw [hnew]
    · rw [hres]
      simp only []
      rw [markRead_append_list, markRead_eq_self [s.next_id] s.messages hfresh]
      simp only [unreadCount, List.filter_append]
      have hnew : List.filter
          (fun m => m.receiver == String.mk p0.tail && m.isread == false)
          (markRead [s.next_id] [newMsgOf s md p0 p1 now]) = [] := by
        simp [markRead, markReadRow, newMsgOf]
      rw [hnew]
      simp

/-- Witness for C7: "@alice hello" from bob succeeds and raises alice's
unread count from 2 to 3. -/
theorem c7_witness :
    (SendMessage demoStore [("username", "bob")] "@alice hello" "t3").2.success = true ∧
    unreadCount (SendMessage demoStore [("username", "bob")] "@alice hello" "t3").1 "alice" =
      unreadCount demoStore "alice" + 1 := by
  have h := (c7_send_insert_roundtrip demoStore [("username", "bob")] "@alice hello" "t3"
    (by decide)).2.2.2 "@alice".data "hello".data (by decide) (by decide) (by decide)
  exact ⟨h.1, h.2.2.2.2.1⟩

/-- Claim C5: on the first triage turn — an empty stripped username gives one
"no username" turn and terminates; zero unread messages give exactly one
"0 unread messages" turn and terminate; a positive unread count gives the
"N unread, type 1 or 2" prompt and moves to the choice stage without
terminating. -/
theorem c5_triage_first_turn (s : Store) (req : CheckMessagesRequest) :
    (pyStrip req.username = "" →
      checkMessagesStep s Stage.awaitUsername req =
        (s, Stage.done, [plainTurn "No username provided. Aborting."])) ∧
    (pyStrip req.username ≠ "" → unreadCount s (pyStrip req.username) = 0 →
      checkMessagesStep s Stage.awaitUsername req =
        (s, Stage.done, [plainTurn "You have 0 unread messages."])) ∧
    (∀ k : Nat, pyStrip req.username ≠ "" →
      unreadCount s (pyStrip req.username) = k + 1 →
      checkMessagesStep s Stage.awaitUsername req =
        (s, Stage.awaitChoice (pyStrip req.username),
         [plainTurn ("You have " ++ toString (k + 1) ++
           " unread messages.\nType \x271\x27 to read them, or \x272\x27 to skip.")]) ∧
      Stage.awaitChoice (pyStrip req.username) ≠ Stage.done) := by
  refine ⟨?_, ?_, ?_⟩
  · intro h
    simp [checkMessagesStep, h]
  · intro h h0
    simp [checkMessagesStep, h, h0]
  · intro k h hk
    refine ⟨?_, by simp⟩
    simp [checkMessagesStep, h, hk]

/-- Witness for C5: alice has 2 unread messages in the demo store, so the
first turn prompts and moves to the choice stage. -/
theorem c5_witness :
    checkMessagesStep demoStore Stage.awaitUsername
        { username := "alice", choice := "", sender := "" } =
      (demoStore, Stage.awaitChoice "alice",
       [plainTurn "You have 2 unread messages.\nType \x271\x27 to read them, or \x272\x27 to skip."]) := by
  have h := ((c5_triage_first_turn demoStore
    { username := "alice", choice := "", sender := "" }).2.2 1 (by decide) (by decide)).1
  rw [h]
  decide

/-- Claim C6: an invalid choice in the choice stage and an empty sender in
the sender stage each emit only a re-prompt turn, leave the stage and the
store unchanged, and do not terminate — for every number of consecutive such
invalid turns. -/
theorem c6_triage_reprompt_loops (n : Nat) (s : Store) (u : String)
    (req1 req2 : CheckMessagesRequest)
    (h1 : pyStrip req1.choice ≠ "1") (h2 : pyStrip req1.choice ≠ "2")
    (h3 : pyStrip req2.sender = "") :
    (runCheckMessages s (Stage.awaitChoice u) (List.replicate n req1) =
      (s, Stage.awaitChoice u,
       List.replicate n (plainTurn "Invalid choice. Please type \x271\x27 or \x272\x27."))) ∧
    (runCheckMessages s (Stage.awaitSender u) (List.replicate n req2) =
      (s, Stage.awaitSender u,
       List.replicate n (plainTurn "Please provide a valid sender name."))) ∧
    Stage.awaitChoice u ≠ Stage.done ∧ Stage.awaitSender u ≠ Stage.done := by
  have hstep1 : checkMessagesStep s (Stage.awaitChoice u) req1 =
      (s, Stage.awaitChoice u,
       [plainTurn "Invalid choice. Please type \x271\x27 or \x272\x27."]) := by
    simp [checkMessagesStep, h1, h2]
  have hstep2 : checkMessagesStep s (Stage.awaitSender u) req2 =
      (s, Stage.awaitSender u, [plainTurn "Please provide a valid sender name."]) := by
    simp [checkMessagesStep, h3]
  induction n with
  | zero => simp [runCheckMessages]
  | succ n ih =>
    rcases ih with ⟨ih1, ih2, _, _⟩
    refine ⟨?_, ?_, by simp, by simp⟩
    · rw [List.replicate_succ]
      simp [runCheckMessages, hstep1, ih1, List.replicate_succ]
    · rw [List.replicate_succ]
      simp [runCheckMessages, hstep2, ih2, List.replicate_succ]

/-- Witness for C6: two consecutive invalid choices re-prompt twice and leave
the machine in the choice stage with the demo store untouched. -/
theorem c6_witness :
    runCheckMessages demoStore (Stage.awaitChoice "alice")
        (List.replicate 2 { username := "", choice := "x", sender := "" }) =
      (demoStore, Stage.awaitChoice "alice",
       List.replicate 2 (plainTurn "Invalid choice. Please type \x271\x27 or \x272\x27.")) :=
  (c6_triage_reprompt_loops 2 demoStore "alice"
    { username := "", choice := "x", sender := "" }
    { username := "", choice := "", sender := "" }
    (by decide) (by decide) (by decide)).1

/-- Claim C1: in the sender stage with a chosen sender having `k > 0` unread
messages for the user, the call emits exactly the `k` delivery turns in
ascending message-id order, exactly `ceil(k/5) = (k+4)/5` "batch marked read"
confirmation turns, ends with the final "Done reading messages from this
sender." turn, terminates, and leaves the store with exactly those messages
marked read; for a single batch (`k ≤ 5`) the emitted sequence is literally
the deliveries followed by one batch confirmation and the done turn. -/
theorem c1_triage_batching (s : Store) (u : String) (req : CheckMessagesRequest)
    (k : Nat) (hk : (fetchUnread s u (pyStrip req.sender)).length = k) (hk0 : 0 < k)
    (hsender : pyStrip req.sender ≠ "") :
    (checkMessagesStep s (Stage.awaitSender u) req).2.1 = Stage.done ∧
    (checkMessagesStep s (Stage.awaitSender u) req).2.2.filter (fun r => r.sender != "") =
      (fetchUnread s u (pyStrip req.sender)).map deliveryTurn ∧
    ((checkMessagesStep s (Stage.awaitSender u) req).2.2.filter
      (fun r => r.sender != "")).length = k ∧
    (checkMessagesStep s (Stage.awaitSender u) req).2.2.count batchReadTurn = (k + 4) / 5 ∧
    (checkMessagesStep s (Stage.awaitSender u) req).2.2.getLast? = some doneTurn ∧
    List.Sorted (fun a b => a ≤ b)
      ((fetchUnread s u (pyStrip req.sender)).map (fun m => m.messageid)) ∧
    (checkMessagesStep s (Stage.awaitSender u) req).1 =
      { s with
          messages := markRead ((fetchUnread s u (pyStrip req.sender)).map (fun m => m.messageid)) s.messages } ∧
    (k ≤ 5 → (checkMessagesStep s (Stage.awaitSender u) req).2.2 =
      (fetchUnread s u (pyStrip req.sender)).map deliveryTurn ++ [batchReadTurn, doneTurn]) := by
  have hne : (fetchUnread s u (pyStrip req.sender)).isEmpty = false := by
    cases hmm : fetchUnread s u (pyStrip req.sender) with
    | nil =>
      rw [hmm] at hk
      simp at hk
      omega
    | cons a l => rfl
  have hsenders : ∀ m ∈ fetchUnread s u (pyStrip req.sender), m.sender ≠ "" := by
    intro m hm
    have := ((mem_fetchUnread s u (pyStrip req.sender) m).mp hm).2.2.1
    rw [this]
    exact hsender
  have hstep : checkMessagesStep s (Stage.awaitSender u) req =
      ((deliverBatches s (fetchUnread s u (pyStrip req.sender))).1, Stage.done,
       (deliverBatches s (fetchUnread s u (pyStrip req.sender))).2 ++ [doneTurn]) := by
    simp [checkMessagesStep, hsender, hne]
  rcases deliverBatches_turns_aux (fetchUnread s u (pyStrip req.sender)).length s
    (fetchUnread s u (pyStrip req.sender)) (le_refl _) hsenders with ⟨hfil, hcnt⟩
  have hdone_filter : List.filter (fun r => r.sender != "") [doneTurn] = [] := by decide
  have hdone_count : List.count batchReadTurn [doneTurn] = 0 := by decide
  refine ⟨by rw [hstep], ?_, ?_, ?_, ?_, fetchUnread_sorted s u (pyStrip req.sender), ?_, ?_⟩
  · rw [hstep]
    simp only [List.filter_append, hfil, hdone_filter, List.append_nil]
  · rw [hstep]
    simp only [List.filter_append, hfil, hdone_filter, List.append_nil, List.length_map, hk]
  · rw [hstep]
    simp only [List.count_append, hcnt, hdone_count, Nat.add_zero, hk]
  · rw [hstep]
    simp only [List.getLast?_concat]
  · rw [hstep]
    simp only [deliverBatches_fst]
  · intro hk5
    rw [hstep]
    cases hmm : fetchUnread s u (pyStrip req.sender) with
    | nil =>
      rw [hmm] at hk
      simp at hk
      omega
    | cons m rest =>
      have hrest : rest.length ≤ 4 := by
        rw [hmm] at hk
        simp only [List.length_cons] at hk
        omega
      rw [deliverBatches_single s m rest hrest]
      simp

/-- Witness for C1: alice reads bob's 2 unread messages — two delivery turns
in id order, one batch confirmation, one done turn. -/
theorem c1_witness :
    (checkMessagesStep demoStore (Stage.awaitSender "alice")
        { username := "", choice := "", sender := "bob" }).2.2 =
      [deliveryTurn demoMsg1, deliveryTurn demoMsg2, batchReadTurn, doneTurn] := by
  have h := (c1_triage_batching demoStore "alice"
    { username := "", choice := "", sender := "bob" } 2
    (by decide) (by decide) (by decide)).2.2.2.2.2.2.2 (by omega)
  rw [h]
  decide
